import Mathlib

/-!
Verification development for the BusTrackr+ real-time bus tracking code.

The definitions below are a shallow embedding of the tracking-relevant
source: the SQL schema of the `trips` and `gps_updates` tables (including
their CHECK / foreign-key / row-level-security constraints and NUMERIC
column precisions), the `DriverDashboard` handlers (`handleStartTrip`,
`handleEndTrip`, `sendGPSUpdate`, the GPS-tracking effect and its
geolocation options), the `PassengerDashboard` active-bus query, and the
`BusMap` component's realtime view reconciliation (`fetchBusLocations`
and the `gps-updates` channel handler with its `setBusLocations`
replace-or-append updater).

Conventions: identifiers are strings, timestamps are naturals
(milliseconds), NUMERIC columns are rationals.  Scale rounding of
NUMERIC(p,8)/NUMERIC(p,2) columns is not modelled; every concrete input
used below is exact at those scales.  `created_at` columns are
server-assigned (`DEFAULT NOW()`), passed here as an explicit `now`
parameter at insert time.
-/

namespace BusTrackr

/-- Row of the `trips` table (`id, bus_id, route_id, driver_id, status,
started_at, completed_at`); `status` is constrained by the schema CHECK to
`active`, `completed` or `cancelled`. -/
structure Trip where
  id : String
  bus_id : String
  route_id : String
  driver_id : String
  status : String
  started_at : Nat
  completed_at : Option Nat
deriving DecidableEq, Repr

/-- Row of the `gps_updates` table.  The schema allows NULL
speed/heading/accuracy, but the only writer (`sendGPSUpdate`) always
supplies a number (`x || 0`), so the stored fields are plain rationals. -/
structure GpsUpdate where
  id : String
  trip_id : String
  latitude : ℚ
  longitude : ℚ
  speed : ℚ
  heading : ℚ
  accuracy : ℚ
  created_at : Nat
deriving DecidableEq, Repr

/-- Database state: the id sets of the reference tables (`buses`,
`routes`, `profiles`) and the two mutable tables of the tracking core. -/
structure DB where
  buses : List String
  routes : List String
  profiles : List String
  trips : List Trip
  gps_updates : List GpsUpdate
deriving DecidableEq, Repr

/-- Errors the database can raise on the inserts/updates the client
issues: primary-key, CHECK, foreign-key and row-level-security
violations, and NUMERIC overflow. -/
inductive DbError
  | pkViolation
  | checkViolation
  | fkViolation
  | rlsViolation
  | numericOverflow
deriving DecidableEq, Repr

deriving instance DecidableEq for Except

/-- Values admitted by the `trips.status` CHECK constraint. -/
def tripStatusValues : List String := ["active", "completed", "cancelled"]

/-- `INSERT INTO trips` as constrained by the schema: primary key fresh,
`status` in the CHECK list, the three foreign keys present, and the RLS
policy `auth.uid() = driver_id`.  The schema has no uniqueness constraint
on `(driver_id, status)`: nothing rejects a second `active` trip for the
same driver. -/
def dbInsertTrip (db : DB) (uid : String) (t : Trip) : Except DbError DB :=
  if t.id ∈ db.trips.map Trip.id then .error .pkViolation
  else if t.status ∉ tripStatusValues then .error .checkViolation
  else if t.bus_id ∉ db.buses ∨ t.route_id ∉ db.routes ∨ t.driver_id ∉ db.profiles then
    .error .fkViolation
  else if uid ≠ t.driver_id then .error .rlsViolation
  else .ok { db with trips := db.trips ++ [t] }

/-- `INSERT INTO gps_updates` as constrained by the schema: primary key
fresh; NUMERIC(10,8)/NUMERIC(11,8) coordinate magnitude bounds and the
NUMERIC(5,2)/NUMERIC(5,2)/NUMERIC(6,2) bounds on speed/heading/accuracy;
the `trip_id` foreign key; and the RLS policy requiring a `trips` row
with this id owned by `auth.uid()`.  Note: neither the schema nor any
trigger checks `trips.status` — samples for completed or cancelled trips
are accepted. -/
def dbInsertGps (db : DB) (uid : String) (g : GpsUpdate) : Except DbError DB :=
  if g.id ∈ db.gps_updates.map GpsUpdate.id then .error .pkViolation
  else if 100 ≤ |g.latitude| ∨ 1000 ≤ |g.longitude| then .error .numericOverflow
  else if 1000 ≤ |g.speed| ∨ 1000 ≤ |g.heading| ∨ 10000 ≤ |g.accuracy| then
    .error .numericOverflow
  else if ¬ (∃ t ∈ db.trips, t.id = g.trip_id) then .error .fkViolation
  else if ¬ (∃ t ∈ db.trips, t.id = g.trip_id ∧ t.driver_id = uid) then .error .rlsViolation
  else .ok { db with gps_updates := db.gps_updates ++ [g] }

/-- The `UPDATE trips SET status = 'completed', completed_at = NOW()
WHERE id = tripId` issued by `handleEndTrip`, under the RLS update policy
`auth.uid() = driver_id` (rows not owned by the caller are simply not
matched; a zero-row update is not an error). -/
def dbUpdateTripCompleted (db : DB) (uid tripId : String) (now : Nat) : DB :=
  { db with trips := db.trips.map fun t =>
      if t.id = tripId ∧ t.driver_id = uid then
        { t with status := "completed", completed_at := some now }
      else t }

/-- The per-trip latest-sample query
(`.order('created_at', { ascending: false }).limit(1)`): the sample for
the trip with the greatest `created_at`, later-inserted rows winning
ties. -/
def latestSampleFor (db : DB) (tripId : String) : Option GpsUpdate :=
  (db.gps_updates.filter fun g => g.trip_id == tripId).foldl
    (fun acc g =>
      match acc with
      | none => some g
      | some a => if a.created_at ≤ g.created_at then some g else some a)
    none

/-- The `activeTrip` component state kept by `DriverDashboard`
(trip id plus the denormalized bus number, route name and start time
returned by the joined insert/select). -/
structure ActiveTrip where
  id : String
  bus_number : String
  route_name : String
  started_at : Nat
deriving DecidableEq, Repr

/-- Toast notifications the driver dashboard can show. -/
inductive ToastMsg
  | missingInformation
  | errorStartingTrip
  | tripStarted
  | tripCompleted
  | errorEndingTrip
  | locationError
  | locationNotSupported
deriving DecidableEq, Repr

/-- The driver-side client state: the database it talks to, the
`activeTrip` state, whether the 5-second `setInterval` handle is set, and
the `gpsUpdateCount` counter. -/
structure DriverState where
  db : DB
  activeTrip : Option ActiveTrip
  gpsIntervalSet : Bool
  gpsUpdateCount : Nat
deriving DecidableEq, Repr

/-- A fix from the browser Geolocation API (`position.coords`):
latitude/longitude always present, speed/heading/accuracy nullable. -/
structure GeoCoords where
  latitude : ℚ
  longitude : ℚ
  speed : Option ℚ
  heading : Option ℚ
  accuracy : Option ℚ
deriving DecidableEq, Repr

/-- Outcome of one `getCurrentPosition` call: the success callback with a
fix, or the error callback. -/
inductive GeoResult
  | success (pos : GeoCoords)
  | failure
deriving DecidableEq, Repr

/-- JavaScript `x || 0` applied to a nullable number: null/undefined
gives 0 (and 0, being falsy, also gives 0). -/
def jsNumOrZero : Option ℚ → ℚ
  | none => 0
  | some x => if x = 0 then 0 else x

/-- Result of one `sendGPSUpdate` call: the database afterwards, the
toast shown (if any), whether a row was inserted, and the increment of
`gpsUpdateCount`. -/
structure SendOutcome where
  db : DB
  toast : Option ToastMsg
  inserted : Bool
  countDelta : Nat
deriving DecidableEq, Repr

/-- `sendGPSUpdate` (DriverDashboard): returns silently when
`activeTrip` is null; shows a toast when geolocation is unsupported or
the position acquisition fails; on an acquired fix inserts a
`gps_updates` row with `x || 0` defaults for speed/heading/accuracy.  An
insert error is only logged (`console.error`) — no toast, no state
change. -/
def sendGPSUpdate (db : DB) (uid : String) (activeTrip : Option ActiveTrip)
    (geoSupported : Bool) (res : GeoResult) (newId : String) (now : Nat) : SendOutcome :=
  match activeTrip with
  | none => { db := db, toast := none, inserted := false, countDelta := 0 }
  | some trip =>
    if geoSupported then
      match res with
      | .success pos =>
        let row : GpsUpdate :=
          { id := newId, trip_id := trip.id,
            latitude := pos.latitude, longitude := pos.longitude,
            speed := jsNumOrZero pos.speed, heading := jsNumOrZero pos.heading,
            accuracy := jsNumOrZero pos.accuracy, created_at := now }
        match dbInsertGps db uid row with
        | .ok db2 => { db := db2, toast := none, inserted := true, countDelta := 1 }
        | .error _ => { db := db, toast := none, inserted := false, countDelta := 0 }
      | .failure => { db := db, toast := some .locationError, inserted := false, countDelta := 0 }
    else { db := db, toast := some .locationNotSupported, inserted := false, countDelta := 0 }

/-- One scheduler tick: run `sendGPSUpdate` against the current client
state and fold its outcome back in.  Nothing in `sendGPSUpdate` touches
the interval handle. -/
def driverTick (st : DriverState) (uid : String) (geoSupported : Bool) (res : GeoResult)
    (newId : String) (now : Nat) : DriverState × Option ToastMsg :=
  let o := sendGPSUpdate st.db uid st.activeTrip geoSupported res newId now
  ({ st with db := o.db, gpsUpdateCount := st.gpsUpdateCount + o.countDelta }, o.toast)

/-- `handleStartTrip`: after the client-side check that a bus and a route
are selected, unconditionally inserts a `trips` row with
`status = 'active'` — there is no check for an existing active trip of
the same driver.  `busNumber` and `routeName` are the values the joined
select returns for the chosen bus/route. -/
def handleStartTrip (st : DriverState) (uid selectedBus selectedRoute : String)
    (newTripId busNumber routeName : String) (now : Nat) : DriverState × Option ToastMsg :=
  if selectedBus = "" ∨ selectedRoute = "" then (st, some .missingInformation)
  else
    let t : Trip :=
      { id := newTripId, bus_id := selectedBus, route_id := selectedRoute,
        driver_id := uid, status := "active", started_at := now, completed_at := none }
    match dbInsertTrip st.db uid t with
    | .error _ => (st, some .errorStartingTrip)
    | .ok db2 =>
      ({ st with
          db := db2,
          activeTrip := some { id := newTripId, bus_number := busNumber,
                               route_name := routeName, started_at := now } },
       some .tripStarted)

/-- `handleEndTrip`: no-op when there is no active trip; otherwise
updates the trip to `completed`, clears `activeTrip`, resets
`gpsUpdateCount` and shows the completion toast. -/
def handleEndTrip (st : DriverState) (uid : String) (now : Nat) :
    DriverState × Option ToastMsg :=
  match st.activeTrip with
  | none => (st, none)
  | some trip =>
    ({ st with
        db := dbUpdateTripCompleted st.db uid trip.id now,
        activeTrip := none, gpsUpdateCount := 0 },
     some .tripCompleted)

/-- `checkActiveTrip` (the on-mount resume query): selects the caller's
trips with `status = 'active'` using `.single()`, which yields a row only
when exactly one matches — with zero or with several active trips it
errors and `activeTrip` stays null. -/
def checkActiveTrip (db : DB) (uid : String) : Option Trip :=
  match db.trips.filter (fun t => t.driver_id == uid && t.status == "active") with
  | [t] => some t
  | _ => none

/-- Options passed to `getCurrentPosition` by `sendGPSUpdate`. -/
structure GeoOptions where
  enableHighAccuracy : Bool
  timeout : Nat
  maximumAge : Nat
deriving DecidableEq, Repr

/-- The literal options object of `sendGPSUpdate`:
`{ enableHighAccuracy: true, timeout: 5000, maximumAge: 0 }`. -/
def gpsGeoOptions : GeoOptions :=
  { enableHighAccuracy := true, timeout := 5000, maximumAge := 0 }

/-- What the GPS-tracking effect installs: whether the interval timer is
running, its period, and whether a first send happens immediately. -/
structure TrackingSchedule where
  running : Bool
  periodMs : Nat
  immediateFirstSend : Bool
deriving DecidableEq, Repr

/-- The `useEffect` on `activeTrip`: with no active trip it clears the
interval; with one it calls `setInterval(sendGPSUpdate, 5000)` and then
calls `sendGPSUpdate()` once immediately. -/
def gpsTrackingEffect : Option ActiveTrip → TrackingSchedule
  | none => { running := false, periodMs := 0, immediateFirstSend := false }
  | some _ => { running := true, periodMs := 5000, immediateFirstSend := true }

/-- Time (ms after the effect runs) of the k-th `sendGPSUpdate` call a
schedule produces: the immediate call fires at 0 and `setInterval` fires
every period thereafter. -/
def sendTimeMs (s : TrackingSchedule) (k : Nat) : Option Nat :=
  if s.running then
    some (if s.immediateFirstSend then k * s.periodMs else (k + 1) * s.periodMs)
  else none

/-- Entry of the `activeBuses` list kept by `PassengerDashboard`. -/
structure ActiveBus where
  bus_number : String
  route_name : String
  trip_id : String
deriving DecidableEq, Repr

/-- `fetchActiveBuses` (PassengerDashboard): the trips of the selected
route with `status = 'active'`, joined with the bus number and route
name (`busNumberOf`/`routeNameOf` are the reference-table lookups; a
missing join yields the literal fallback strings of the source).  It is
re-run on every `trips` change event for the route. -/
def fetchActiveBuses (db : DB) (routeId : String)
    (busNumberOf routeNameOf : String → Option String) : List ActiveBus :=
  (db.trips.filter fun t => t.route_id == routeId && t.status == "active").map fun t =>
    { bus_number := (busNumberOf t.bus_id).getD "Unknown",
      route_name := (routeNameOf t.route_id).getD "Unknown Route",
      trip_id := t.id }

/-- Entry of the `busLocations` view kept by `BusMap`.  Note that no
`created_at` is kept: the view stores only the coordinates plus
denormalized labels. -/
structure BusLocation where
  id : String
  bus_number : String
  latitude : ℚ
  longitude : ℚ
  trip_id : String
  route_name : String
deriving DecidableEq, Repr

/-- The fields of a realtime `INSERT` payload on `gps_updates` that the
`BusMap` handler reads (`payload.new.trip_id`, `payload.new.latitude`,
`payload.new.longitude`; `created_at` is part of the payload but the
handler never reads it). -/
structure GpsInsertPayload where
  trip_id : String
  latitude : ℚ
  longitude : ℚ
  created_at : Nat
deriving DecidableEq, Repr

/-- The per-payload trip-details query of the handler (select
`buses.bus_number` and `routes.name` for the payload's trip), abstracted
as a lookup from trip id to that pair. -/
def TripInfo : Type := String → Option (String × String)

/-- Building the `newLocation` object of the handler from the payload
and the fetched trip details. -/
def payloadToLocation (p : GpsInsertPayload) (info : String × String) : BusLocation :=
  { id := p.trip_id, bus_number := info.1,
    latitude := p.latitude, longitude := p.longitude,
    trip_id := p.trip_id, route_name := info.2 }

/-- The `setBusLocations` updater of `BusMap`: `findIndex` on the trip
id; if found, replace that entry in place, otherwise append the new
location. -/
def applyGpsInsert (prev : List BusLocation) (newLocation : BusLocation) : List BusLocation :=
  match prev.findIdx? (fun loc => loc.id == newLocation.id) with
  | some index => prev.set index newLocation
  | none => prev ++ [newLocation]

/-- Structural-recursion characterization of the replace-or-append
updater, used to reason about `applyGpsInsert` (proved equal to it
below): replace the first entry with a matching id, else append. -/
def applyRec : List BusLocation → BusLocation → List BusLocation
  | [], newLocation => [newLocation]
  | loc :: rest, newLocation =>
    if loc.id == newLocation.id then newLocation :: rest
    else loc :: applyRec rest newLocation

/-- The `gps-updates` channel handler of `BusMap`: fetch the trip
details for the payload; if the trip row is missing, return without
touching the view; otherwise run the replace-or-append updater.  The
payload's `created_at` is never compared with anything. -/
def handleGpsInsert (tripInfo : TripInfo) (view : List BusLocation)
    (p : GpsInsertPayload) : List BusLocation :=
  match tripInfo p.trip_id with
  | none => view
  | some info => applyGpsInsert view (payloadToLocation p info)

/-- A realtime event of the storage platform: an `INSERT` on
`gps_updates`, or a change on the `trips` table (in particular the
status update emitted when a trip ends). -/
inductive RealtimeEvent
  | gpsInsert (p : GpsInsertPayload)
  | tripChange (tripId : String) (newStatus : String)
deriving DecidableEq, Repr

/-- How `BusMap` reacts to one realtime event.  Its only subscription is
the channel on `{ event: 'INSERT', table: 'gps_updates' }`, so `trips`
events are never delivered to it and leave its view untouched: the
component has no removal path for ended trips. -/
def busMapStep (tripInfo : TripInfo) (view : List BusLocation) :
    RealtimeEvent → List BusLocation
  | .gpsInsert p => handleGpsInsert tripInfo view p
  | .tripChange _ _ => view

/-- Folding a stream of realtime events into the `BusMap` view. -/
def busMapRun (tripInfo : TripInfo) (view : List BusLocation)
    (events : List RealtimeEvent) : List BusLocation :=
  events.foldl (busMapStep tripInfo) view

/-- The entry the view holds for a given trip id (the first match, as
`findIndex`-based updating keeps at most one). -/
def viewEntry (view : List BusLocation) (tripId : String) : Option BusLocation :=
  view.find? fun loc => loc.id == tripId

/-- The `gps_updates`-insert payloads of an event stream that concern
one trip, in delivery order. -/
def eventsForTrip (tripId : String) (events : List RealtimeEvent) : List GpsInsertPayload :=
  events.filterMap fun ev =>
    match ev with
    | .gpsInsert p => if p.trip_id == tripId then some p else none
    | .tripChange _ _ => none

/-- `fetchBusLocations` (the bootstrap query of `BusMap`): for every
active trip take its latest sample, skipping trips with no GPS data
yet. -/
def fetchBusLocations (db : DB) (busNumberOf routeNameOf : String → Option String) :
    List BusLocation :=
  (db.trips.filter fun t => t.status == "active").foldl
    (fun locations t =>
      match latestSampleFor db t.id with
      | none => locations
      | some g =>
        locations ++ [{ id := t.id, bus_number := (busNumberOf t.bus_id).getD "Unknown",
                        latitude := g.latitude, longitude := g.longitude,
                        trip_id := t.id,
                        route_name := (routeNameOf t.route_id).getD "Unknown Route" }])
    []

/-! Concrete example data used in counterexamples, evaluations and
witnesses below. -/

/-- An active trip of driver `d1` on bus `b1`, route `r1`. -/
def exTrip1 : Trip :=
  { id := "t1", bus_id := "b1", route_id := "r1", driver_id := "d1",
    status := "active", started_at := 0, completed_at := none }

/-- A database with one bus, one route, one driver profile, the active
trip `t1` and no samples yet. -/
def exDB : DB :=
  { buses := ["b1"], routes := ["r1"], profiles := ["d1"],
    trips := [exTrip1], gps_updates := [] }

/-- `exTrip1` after `handleEndTrip` has completed it. -/
def exTrip1Done : Trip :=
  { exTrip1 with status := "completed", completed_at := some 50 }

/-- A sample already stored for `t1` (server timestamp 10). -/
def exS1 : GpsUpdate :=
  { id := "g1", trip_id := "t1", latitude := 40, longitude := -75,
    speed := 0, heading := 0, accuracy := 0, created_at := 10 }

/-- The database after `t1` has been completed, still holding `exS1` as
the (latest) sample of `t1`. -/
def exDBDone : DB :=
  { buses := ["b1"], routes := ["r1"], profiles := ["d1"],
    trips := [exTrip1Done], gps_updates := [exS1] }

/-- The `activeTrip` client state corresponding to `exTrip1`. -/
def exATrip : ActiveTrip :=
  { id := "t1", bus_number := "12", route_name := "Downtown Loop", started_at := 0 }

/-- A fresh driver client session: no `activeTrip` state (for instance a
second tab, or a session opened before `checkActiveTrip` resolves). -/
def exSt0 : DriverState :=
  { db := exDB, activeTrip := none, gpsIntervalSet := false, gpsUpdateCount := 0 }

/-- A driver client whose database already shows `t1` completed but
whose in-flight callback still holds the stale `activeTrip` closure. -/
def exStStale : DriverState :=
  { db := exDBDone, activeTrip := some exATrip, gpsIntervalSet := true, gpsUpdateCount := 3 }

/-- A geolocation fix with no speed/heading/accuracy. -/
def exPos : GeoCoords :=
  { latitude := 41, longitude := -76, speed := none, heading := none, accuracy := none }

/-- A geolocation fix with MIXED absence — speed null, heading and
accuracy present (the typical Geolocation API shape, where `accuracy`
is always supplied while `speed`/`heading` are nullable). -/
def exPosMixed : GeoCoords :=
  { latitude := 41, longitude := -76, speed := none, heading := some 7,
    accuracy := some 3 }

/-- A sample with latitude outside [-90, 90] and longitude outside
[-180, 180] (but inside the NUMERIC column precision). -/
def exRow95 : GpsUpdate :=
  { id := "g9", trip_id := "t1", latitude := 95, longitude := 200,
    speed := 0, heading := 0, accuracy := 0, created_at := 5 }

/-- Trip-details lookup covering the trips `t1` and `t2`. -/
def exTripInfo : TripInfo := fun t =>
  if t == "t1" then some ("12", "Downtown Loop")
  else if t == "t2" then some ("7", "Uptown") else none

/-- A realtime payload for `t1` with server timestamp 10. -/
def exP1 : GpsInsertPayload :=
  { trip_id := "t1", latitude := 40, longitude := -75, created_at := 10 }

/-- A realtime payload for `t1` OLDER than `exP1` (timestamp 5). -/
def exP2older : GpsInsertPayload :=
  { trip_id := "t1", latitude := 41, longitude := -76, created_at := 5 }

/-- A later realtime payload for `t1` (timestamp 20). -/
def exP3 : GpsInsertPayload :=
  { trip_id := "t1", latitude := 42, longitude := -77, created_at := 20 }

/-- A realtime payload for the other trip `t2`. -/
def exQ1 : GpsInsertPayload :=
  { trip_id := "t2", latitude := 10, longitude := 11, created_at := 7 }

/-- An event stream where the `t1` samples arrive in `created_at` order,
interleaved with a `t2` sample and a `trips` change of another trip. -/
def exEvents : List RealtimeEvent :=
  [.gpsInsert exP1, .gpsInsert exQ1, .gpsInsert exP3, .tripChange "t3" "completed"]

/-- Reference lookups for the passenger dashboard joins. -/
def exBusNumberOf : String → Option String := fun b =>
  if b == "b1" then some "12" else none

/-- Reference lookup for route names. -/
def exRouteNameOf : String → Option String := fun r =>
  if r == "r1" then some "Downtown Loop" else none

/-- A two-entry `BusMap` view with distinct trip ids. -/
def exView2 : List BusLocation :=
  [{ id := "t1", bus_number := "12", latitude := 40, longitude := -75,
     trip_id := "t1", route_name := "Downtown Loop" },
   { id := "t2", bus_number := "7", latitude := 10, longitude := 11,
     trip_id := "t2", route_name := "Uptown" }]

/-! Helper lemmas about the `BusMap` view updater. -/

theorem applyGpsInsert_eq_applyRec (prev : List BusLocation) (newLocation : BusLocation) :
    applyGpsInsert prev newLocation = applyRec prev newLocation := by
  induction prev with
  | nil => rfl
  | cons loc rest ih =>
    by_cases h : (loc.id == newLocation.id)
    · simp [applyGpsInsert, applyRec, List.findIdx?_cons, h]
    · simp only [applyGpsInsert, applyRec, List.findIdx?_cons, h, if_false,
        Bool.false_eq_true, List.findIdx?_succ]
      cases hfi : rest.findIdx? (fun l => l.id == newLocation.id) with
      | none =>
        simp only [applyGpsInsert, hfi] at ih
        simp [hfi, ← ih]
      | some i =>
        simp only [applyGpsInsert, hfi] at ih
        simp [hfi, List.set_cons_succ, ← ih]

theorem viewEntry_applyRec_self (prev : List BusLocation) (newLocation : BusLocation) :
    viewEntry (applyRec prev newLocation) newLocation.id = some newLocation := by
  induction prev with
  | nil => simp [applyRec, viewEntry]
  | cons loc rest ih =>
    by_cases h : (loc.id == newLocation.id)
    · simp [applyRec, h, viewEntry]
    · simpa [applyRec, h, viewEntry] using ih

theorem viewEntry_applyRec_other (prev : List BusLocation) (newLocation : BusLocation)
    (tripId : String) (h : newLocation.id ≠ tripId) :
    viewEntry (applyRec prev newLocation) tripId = viewEntry prev tripId := by
  induction prev with
  | nil => simp [applyRec, viewEntry, h]
  | cons loc rest ih =>
    by_cases hl : (loc.id == newLocation.id)
    · have hle : loc.id = newLocation.id := by simpa using hl
      simp [applyRec, hl, viewEntry, hle, h]
    · by_cases ht : (loc.id == tripId)
      · simp [applyRec, hl, viewEntry, ht]
      · simpa [applyRec, hl, viewEntry, ht] using ih

theorem map_id_applyRec_of_mem (prev : List BusLocation) (newLocation : BusLocation)
    (h : newLocation.id ∈ prev.map BusLocation.id) :
    (applyRec prev newLocation).map BusLocation.id = prev.map BusLocation.id := by
  induction prev with
  | nil => simp at h
  | cons loc rest ih =>
    by_cases hl : (loc.id == newLocation.id)
    · have hle : loc.id = newLocation.id := by simpa using hl
      simp [applyRec, hl, hle]
    · have hne : loc.id ≠ newLocation.id := by simpa using hl
      rw [List.map_cons] at h
      have hmem : newLocation.id ∈ rest.map BusLocation.id := by
        rcases List.mem_cons.mp h with h1 | h1
        · exact absurd h1.symm hne
        · exact h1
      simp [applyRec, hl, ih hmem]

theorem map_id_applyRec_of_not_mem (prev : List BusLocation) (newLocation : BusLocation)
    (h : newLocation.id ∉ prev.map BusLocation.id) :
    (applyRec prev newLocation).map BusLocation.id
      = prev.map BusLocation.id ++ [newLocation.id] := by
  induction prev with
  | nil => simp [applyRec]
  | cons loc rest ih =>
    have hne : loc.id ≠ newLocation.id := by
      intro he
      exact h (by simp [he])
    have hl : (loc.id == newLocation.id) = false := by simpa using hne
    have hrest : newLocation.id ∉ rest.map BusLocation.id := by
      intro hm
      exact h (by simp [hm])
    simp [applyRec, hl, ih hrest]

theorem nodup_applyRec (prev : List BusLocation) (newLocation : BusLocation)
    (h : (prev.map BusLocation.id).Nodup) :
    ((applyRec prev newLocation).map BusLocation.id).Nodup := by
  by_cases hm : newLocation.id ∈ prev.map BusLocation.id
  · rw [map_id_applyRec_of_mem prev newLocation hm]
    exact h
  · rw [map_id_applyRec_of_not_mem prev newLocation hm]
    refine List.Nodup.append h (List.nodup_singleton _) ?_
    intro x hx hx1
    rcases List.mem_singleton.mp hx1 with rfl
    exact hm hx

theorem handleGpsInsert_of_some (tripInfo : TripInfo) (view : List BusLocation)
    (p : GpsInsertPayload) (info : String × String) (h : tripInfo p.trip_id = some info) :
    handleGpsInsert tripInfo view p = applyGpsInsert view (payloadToLocation p info) := by
  unfold handleGpsInsert
  rw [h]

theorem viewEntry_handleGpsInsert_self (tripInfo : TripInfo) (view : List BusLocation)
    (p : GpsInsertPayload) (info : String × String) (h : tripInfo p.trip_id = some info) :
    viewEntry (handleGpsInsert tripInfo view p) p.trip_id
      = some (payloadToLocation p info) := by
  rw [handleGpsInsert_of_some tripInfo view p info h, applyGpsInsert_eq_applyRec]
  simpa [payloadToLocation] using viewEntry_applyRec_self view (payloadToLocation p info)

theorem viewEntry_handleGpsInsert_other (tripInfo : TripInfo) (view : List BusLocation)
    (p : GpsInsertPayload) (tripId : String) (h : p.trip_id ≠ tripId) :
    viewEntry (handleGpsInsert tripInfo view p) tripId = viewEntry view tripId := by
  cases hfi : tripInfo p.trip_id with
  | none =>
    unfold handleGpsInsert
    rw [hfi]
  | some info =>
    rw [handleGpsInsert_of_some tripInfo view p info hfi, applyGpsInsert_eq_applyRec]
    exact viewEntry_applyRec_other view (payloadToLocation p info) tripId
      (by simpa [payloadToLocation] using h)

theorem busMapRun_cons (tripInfo : TripInfo) (view : List BusLocation)
    (ev : RealtimeEvent) (es : List RealtimeEvent) :
    busMapRun tripInfo view (ev :: es) = busMapRun tripInfo (busMapStep tripInfo view ev) es :=
  rfl

theorem eventsForTrip_cons_tripChange (tripId i s : String) (es : List RealtimeEvent) :
    eventsForTrip tripId (.tripChange i s :: es) = eventsForTrip tripId es := by
  simp [eventsForTrip, List.filterMap_cons]

theorem eventsForTrip_cons_gps_pos (tripId : String) (p : GpsInsertPayload)
    (es : List RealtimeEvent) (h : p.trip_id = tripId) :
    eventsForTrip tripId (.gpsInsert p :: es) = p :: eventsForTrip tripId es := by
  simp [eventsForTrip, List.filterMap_cons, h]

theorem eventsForTrip_cons_gps_neg (tripId : String) (p : GpsInsertPayload)
    (es : List RealtimeEvent) (h : p.trip_id ≠ tripId) :
    eventsForTrip tripId (.gpsInsert p :: es) = eventsForTrip tripId es := by
  simp [eventsForTrip, List.filterMap_cons, h]

theorem busMapRun_no_trip_events (tripInfo : TripInfo) (tripId : String) :
    ∀ (events : List RealtimeEvent), eventsForTrip tripId events = [] →
      ∀ view, viewEntry (busMapRun tripInfo view events) tripId = viewEntry view tripId := by
  intro events
  induction events with
  | nil =>
    intro _ view
    rfl
  | cons ev es ih =>
    intro h view
    cases ev with
    | tripChange i s =>
      rw [eventsForTrip_cons_tripChange] at h
      rw [busMapRun_cons]
      exact ih h _
    | gpsInsert p =>
      by_cases hp : p.trip_id = tripId
      · rw [eventsForTrip_cons_gps_pos tripId p es hp] at h
        exact absurd h (List.cons_ne_nil _ _)
      · rw [eventsForTrip_cons_gps_neg tripId p es hp] at h
        rw [busMapRun_cons]
        calc viewEntry (busMapRun tripInfo (busMapStep tripInfo view (.gpsInsert p)) es) tripId
            = viewEntry (handleGpsInsert tripInfo view p) tripId := ih h _
          _ = viewEntry view tripId := viewEntry_handleGpsInsert_other tripInfo view p tripId hp

theorem busMapRun_last_event (tripInfo : TripInfo) (tripId : String) (info : String × String)
    (hinfo : tripInfo tripId = some info) :
    ∀ (events : List RealtimeEvent) (pN : GpsInsertPayload),
      (eventsForTrip tripId events).getLast? = some pN →
      ∀ view, viewEntry (busMapRun tripInfo view events) tripId
        = some (payloadToLocation pN info) := by
  intro events
  induction events with
  | nil =>
    intro pN hlast view
    simp [eventsForTrip] at hlast
  | cons ev es ih =>
    intro pN hlast view
    cases ev with
    | tripChange i s =>
      rw [eventsForTrip_cons_tripChange] at hlast
      rw [busMapRun_cons]
      exact ih pN hlast _
    | gpsInsert p =>
      by_cases hp : p.trip_id = tripId
      · rw [eventsForTrip_cons_gps_pos tripId p es hp] at hlast
        rw [busMapRun_cons]
        rcases h2 : eventsForTrip tripId es with _ | ⟨q, qs⟩
        · rw [h2] at hlast
          have hpn : p = pN := by simpa using hlast
          subst hpn
          have hrun := busMapRun_no_trip_events tripInfo tripId es h2
            (handleGpsInsert tripInfo view p)
          have hinfo2 : tripInfo p.trip_id = some info := by
            rw [hp]
            exact hinfo
          have hself := viewEntry_handleGpsInsert_self tripInfo view p info hinfo2
          rw [hp] at hself
          calc viewEntry (busMapRun tripInfo (busMapStep tripInfo view (.gpsInsert p)) es) tripId
              = viewEntry (handleGpsInsert tripInfo view p) tripId := hrun
            _ = some (payloadToLocation p info) := hself
        · rw [h2] at hlast
          have hlast2 : (eventsForTrip tripId es).getLast? = some pN := by
            rw [h2]
            rw [List.getLast?_cons_cons] at hlast
            exact hlast
          exact ih pN hlast2 _
      · rw [eventsForTrip_cons_gps_neg tripId p es hp] at hlast
        rw [busMapRun_cons]
        exact ih pN hlast _

/-- Success conditions of the `gps_updates` insert: with a fresh id,
values inside the NUMERIC precisions and a trip of the caller, the row
is appended — no condition involves the trip status or the [-90, 90] /
[-180, 180] coordinate ranges. -/
theorem dbInsertGps_ok (db : DB) (uid : String) (g : GpsUpdate)
    (hid : g.id ∉ db.gps_updates.map GpsUpdate.id)
    (hlat : |g.latitude| < 100) (hlng : |g.longitude| < 1000)
    (hspeed : |g.speed| < 1000) (hheading : |g.heading| < 1000)
    (haccuracy : |g.accuracy| < 10000)
    (howner : ∃ t ∈ db.trips, t.id = g.trip_id ∧ t.driver_id = uid) :
    dbInsertGps db uid g = .ok { db with gps_updates := db.gps_updates ++ [g] } := by
  have hfk : ∃ t ∈ db.trips, t.id = g.trip_id := by
    rcases howner with ⟨t, ht, h1, _⟩
    exact ⟨t, ht, h1⟩
  rw [dbInsertGps, if_neg hid, if_neg (by push_neg; exact ⟨hlat, hlng⟩),
    if_neg (by push_neg; exact ⟨hspeed, hheading, haccuracy⟩),
    if_neg (by push_neg; exact hfk), if_neg (by push_neg; exact howner)]

/-- C1 — evaluation at the failing input: driver `d1` already has the
active trip `t1` (its dashboard can resume it via `checkActiveTrip`),
yet a `handleStartTrip` issued from a session whose `activeTrip` state
is null succeeds with the `tripStarted` toast, leaving TWO trips with
`status = active` for `d1`; afterwards `checkActiveTrip` — which relies
on `.single()` — errors and can no longer resume either trip.  No code
path produces a conflict error. -/
theorem startTrip_allows_second_active_trip :
    checkActiveTrip exDB "d1" = some exTrip1 ∧
    (handleStartTrip exSt0 "d1" "b1" "r1" "t2" "12" "Downtown Loop" 100).2
      = some .tripStarted ∧
    ((handleStartTrip exSt0 "d1" "b1" "r1" "t2" "12" "Downtown Loop" 100).1.db.trips.filter
      (fun t => t.driver_id == "d1" && t.status == "active")).length = 2 ∧
    checkActiveTrip
      (handleStartTrip exSt0 "d1" "b1" "r1" "t2" "12" "Downtown Loop" 100).1.db "d1"
      = none := by
  refine ⟨by decide, by decide, by decide, by decide⟩

/-- C2 — evaluation at the failing input: trip `t1` is `completed` and
its stored latest sample is `exS1`; a tick whose callback still holds
the stale `activeTrip` closure submits a new sample, the insert
SUCCEEDS with no error of any kind (no toast, no typed result), and the
stored latest sample for the completed trip changes.  A tick running
after the state was cleared (`activeTrip = null`) silently returns
without surfacing any error either. -/
theorem submit_after_end_is_accepted :
    exTrip1Done.status = "completed" ∧
    latestSampleFor exDBDone "t1" = some exS1 ∧
    (driverTick exStStale "d1" true (.success exPos) "g2" 60).2 = none ∧
    latestSampleFor (driverTick exStStale "d1" true (.success exPos) "g2" 60).1.db "t1"
      = some { id := "g2", trip_id := "t1", latitude := 41, longitude := -76,
               speed := 0, heading := 0, accuracy := 0, created_at := 60 } ∧
    latestSampleFor (driverTick exStStale "d1" true (.success exPos) "g2" 60).1.db "t1"
      ≠ some exS1 ∧
    driverTick (handleEndTrip exStStale "d1" 50).1 "d1" true (.success exPos) "g3" 70
      = ((handleEndTrip exStStale "d1" 50).1, none) := by
  refine ⟨by decide, by decide, by decide, by decide, by decide, by decide⟩

/-- C4 — counterexample: a sample with latitude 95 ∉ [-90, 90] and
longitude 200 ∉ [-180, 180] submitted for an active trip is accepted
and persisted unchanged; no validation error exists for coordinate
ranges. -/
theorem out_of_range_sample_accepted :
    exRow95.latitude > 90 ∧ exRow95.longitude > 180 ∧
    dbInsertGps exDB "d1" exRow95 = .ok { exDB with gps_updates := [exRow95] } ∧
    latestSampleFor { exDB with gps_updates := [exRow95] } "t1" = some exRow95 := by
  refine ⟨by decide, by decide, by decide, by decide⟩

/-- C4 (amended): `Submit` performs no latitude/longitude range
validation.  Every sample whose values fit the NUMERIC column
precisions (|lat| < 100, |lng| < 1000, and the speed/heading/accuracy
bounds), with a fresh id and a trip owned by the caller, is accepted
and persisted as given — whether or not its coordinates lie in
[-90, 90] × [-180, 180]. -/
theorem submit_has_no_range_validation (db : DB) (uid : String) (g : GpsUpdate)
    (hid : g.id ∉ db.gps_updates.map GpsUpdate.id)
    (hlat : |g.latitude| < 100) (hlng : |g.longitude| < 1000)
    (hspeed : |g.speed| < 1000) (hheading : |g.heading| < 1000)
    (haccuracy : |g.accuracy| < 10000)
    (howner : ∃ t ∈ db.trips, t.id = g.trip_id ∧ t.driver_id = uid) :
    dbInsertGps db uid g = .ok { db with gps_updates := db.gps_updates ++ [g] } :=
  dbInsertGps_ok db uid g hid hlat hlng hspeed hheading haccuracy howner

/-- Witness for the amended C4, at the out-of-range sample `exRow95`. -/
theorem submit_has_no_range_validation_witness :
    exRow95.latitude > 90 ∧
    dbInsertGps exDB "d1" exRow95 = .ok { exDB with gps_updates := exDB.gps_updates ++ [exRow95] } :=
  ⟨by decide,
    submit_has_no_range_validation exDB "d1" exRow95 (by decide) (by decide) (by decide)
      (by decide) (by decide) (by decide) ⟨exTrip1, by decide, by decide, by decide⟩⟩

/-- C3 — counterexample: the view holds the sample of `exP1`
(timestamp 10); the event `exP2older` (timestamp 5) then arrives for the
same trip, and the stored sample CHANGES to the older event's data — the
handler keeps no `created_at` and performs no ordering comparison. -/
theorem older_event_overwrites_stored_sample :
    exP2older.created_at < exP1.created_at ∧
    viewEntry (handleGpsInsert exTripInfo [] exP1) "t1"
      = some (payloadToLocation exP1 ("12", "Downtown Loop")) ∧
    viewEntry (handleGpsInsert exTripInfo (handleGpsInsert exTripInfo [] exP1) exP2older) "t1"
      = some (payloadToLocation exP2older ("12", "Downtown Loop")) ∧
    handleGpsInsert exTripInfo (handleGpsInsert exTripInfo [] exP1) exP2older
      ≠ handleGpsInsert exTripInfo [] exP1 := by
  refine ⟨by decide, by decide, by decide, by decide⟩

/-- C3 (amended): applying a `SampleAccepted` (`gps_updates` INSERT)
event for a trip present in the view replaces the stored sample
UNCONDITIONALLY with the incoming event's data — regardless of the
incoming `created_at`, in particular also when it is older than the
event that produced the stored entry (the view keeps no `created_at` to
compare against, so the view reflects the last DELIVERED sample, not
the last created one). -/
theorem sample_event_replaces_unconditionally (tripInfo : TripInfo)
    (view : List BusLocation) (p : GpsInsertPayload) (info : String × String)
    (hinfo : tripInfo p.trip_id = some info)
    (loc : BusLocation) (_hpresent : viewEntry view p.trip_id = some loc) :
    viewEntry (handleGpsInsert tripInfo view p) p.trip_id
      = some (payloadToLocation p info) :=
  viewEntry_handleGpsInsert_self tripInfo view p info hinfo

/-- Witness for the amended C3: the older event `exP2older` replaces
the entry stored from `exP1`. -/
theorem sample_event_replaces_unconditionally_witness :
    exTripInfo "t1" = some ("12", "Downtown Loop") ∧
    viewEntry (handleGpsInsert exTripInfo [] exP1) "t1"
      = some (payloadToLocation exP1 ("12", "Downtown Loop")) ∧
    viewEntry (handleGpsInsert exTripInfo (handleGpsInsert exTripInfo [] exP1) exP2older)
        exP2older.trip_id
      = some (payloadToLocation exP2older ("12", "Downtown Loop")) :=
  ⟨by decide, by decide,
    sample_event_replaces_unconditionally exTripInfo (handleGpsInsert exTripInfo [] exP1)
      exP2older ("12", "Downtown Loop") (by decide)
      (payloadToLocation exP1 ("12", "Downtown Loop")) (by decide)⟩

/-- C5 — evaluation at the failing input: the `BusMap` view holds an
entry for `t1`; the trip ends (a `trips` change event to `completed`),
but `BusMap` subscribes only to `gps_updates` INSERTs, so the event
leaves its view untouched and the entry for the ended trip REMAINS.  By
contrast, the `PassengerDashboard` list — which does subscribe to
`trips` changes and refetches — drops the trip within one cycle. -/
theorem busmap_keeps_entry_after_trip_end :
    busMapStep exTripInfo (handleGpsInsert exTripInfo [] exP1) (.tripChange "t1" "completed")
      = handleGpsInsert exTripInfo [] exP1 ∧
    viewEntry
        (busMapStep exTripInfo (handleGpsInsert exTripInfo [] exP1)
          (.tripChange "t1" "completed")) "t1"
      = some (payloadToLocation exP1 ("12", "Downtown Loop")) ∧
    fetchActiveBuses exDB "r1" exBusNumberOf exRouteNameOf
      = [{ bus_number := "12", route_name := "Downtown Loop", trip_id := "t1" }] ∧
    fetchActiveBuses (dbUpdateTripCompleted exDB "d1" "t1" 99) "r1" exBusNumberOf exRouteNameOf
      = [] := by
  refine ⟨by decide, by decide, by decide, by decide⟩

/-- C6: given samples submitted to one trip with strictly increasing
`created_at`, a `BusMap` view that receives the corresponding
`gps_updates` INSERT events in that order for this trip — under any
interleaving with events of other trips and with `trips`-table events —
ends with the trip's stored entry equal to the final (newest) sample. -/
theorem busmap_in_order_ends_with_newest (tripInfo : TripInfo) (tripId : String)
    (info : String × String) (hinfo : tripInfo tripId = some info)
    (events : List RealtimeEvent) (view : List BusLocation)
    (_hsorted : (eventsForTrip tripId events).Chain' fun a b => a.created_at < b.created_at)
    (pN : GpsInsertPayload) (hlast : (eventsForTrip tripId events).getLast? = some pN) :
    viewEntry (busMapRun tripInfo view events) tripId
      = some (payloadToLocation pN info) :=
  busMapRun_last_event tripInfo tripId info hinfo events pN hlast view

/-- Witness for C6: the stream `exEvents` delivers the `t1` samples
`exP1`, `exP3` in `created_at` order, interleaved with a `t2` sample
and a foreign `trips` event; the final entry for `t1` is `exP3`. -/
theorem busmap_in_order_ends_with_newest_witness :
    exTripInfo "t1" = some ("12", "Downtown Loop") ∧
    ((eventsForTrip "t1" exEvents).Chain' fun a b => a.created_at < b.created_at) ∧
    (eventsForTrip "t1" exEvents).getLast? = some exP3 ∧
    viewEntry (busMapRun exTripInfo [] exEvents) "t1"
      = some (payloadToLocation exP3 ("12", "Downtown Loop")) := by
  have he : eventsForTrip "t1" exEvents = [exP1, exP3] := by decide
  have hchain : (eventsForTrip "t1" exEvents).Chain' fun a b => a.created_at < b.created_at := by
    rw [he]
    exact List.chain'_pair.mpr (by decide)
  exact ⟨by decide, hchain, by decide,
    busmap_in_order_ends_with_newest exTripInfo "t1" ("12", "Downtown Loop") (by decide)
      exEvents [] hchain exP3 (by decide)⟩

/-- C7: while a trip is active the tracking effect runs the scheduler
with a fixed 5000 ms period, issues the first send immediately (time 0,
no initial delay, the k-th send at k·5000 ms), and every tick requests
a position with `timeout = 5000` and `maximumAge = 0`. -/
theorem scheduler_period_and_options (trip : ActiveTrip) :
    (gpsTrackingEffect (some trip)).running = true ∧
    (gpsTrackingEffect (some trip)).periodMs = 5000 ∧
    sendTimeMs (gpsTrackingEffect (some trip)) 0 = some 0 ∧
    (∀ k : Nat, sendTimeMs (gpsTrackingEffect (some trip)) k = some (k * 5000)) ∧
    gpsGeoOptions.timeout = 5000 ∧
    gpsGeoOptions.maximumAge = 0 := by
  refine ⟨rfl, rfl, rfl, ?_, rfl, rfl⟩
  intro k
  simp [sendTimeMs, gpsTrackingEffect]

/-- Witness for C7 at the concrete trip `exATrip`. -/
theorem scheduler_period_and_options_witness :
    (gpsTrackingEffect (some exATrip)).periodMs = 5000 ∧
    sendTimeMs (gpsTrackingEffect (some exATrip)) 0 = some 0 ∧
    gpsGeoOptions.maximumAge = 0 :=
  ⟨(scheduler_period_and_options exATrip).2.1,
    (scheduler_period_and_options exATrip).2.2.1,
    (scheduler_period_and_options exATrip).2.2.2.2.2⟩

/-- C8: a tick whose position acquisition fails shows the destructive
"Location Error" toast (a user-visible warning), changes nothing else
in the client state — in particular the interval handle stays set — and
the tracking schedule for the still-active trip keeps running, so the
next tick fires. -/
theorem failed_fix_keeps_scheduler_running (st : DriverState) (uid newId : String)
    (now : Nat) (trip : ActiveTrip)
    (hactive : st.activeTrip = some trip) (hint : st.gpsIntervalSet = true) :
    (driverTick st uid true .failure newId now).2 = some .locationError ∧
    (driverTick st uid true .failure newId now).1 = st ∧
    (driverTick st uid true .failure newId now).1.gpsIntervalSet = true ∧
    (gpsTrackingEffect (driverTick st uid true .failure newId now).1.activeTrip).running
      = true := by
  have h2 : (driverTick st uid true .failure newId now).1 = st := by
    simp [driverTick, sendGPSUpdate, hactive]
    rw [← hactive]
  refine ⟨?_, h2, ?_, ?_⟩
  · simp [driverTick, sendGPSUpdate, hactive]
  · rw [h2]
    exact hint
  · rw [h2, hactive]
    rfl

/-- Witness for C8 at the concrete state `exStStale`. -/
theorem failed_fix_keeps_scheduler_running_witness :
    exStStale.activeTrip = some exATrip ∧
    exStStale.gpsIntervalSet = true ∧
    (driverTick exStStale "d1" true .failure "g4" 80).2 = some .locationError ∧
    (driverTick exStStale "d1" true .failure "g4" 80).1 = exStStale :=
  ⟨by decide, by decide,
    (failed_fix_keeps_scheduler_running exStStale "d1" "g4" 80 exATrip
      (by decide) (by decide)).1,
    (failed_fix_keeps_scheduler_running exStStale "d1" "g4" 80 exATrip
      (by decide) (by decide)).2.1⟩

/-- C9: for every accepted submission, EACH absent (`null`) field among
speed, heading and accuracy is stored as zero in the persisted row
(`x || 0`), independently of whether the other two are present; present
fields are stored as given.  The persisted row is the one appended to
`gps_updates` (its `getLast?`). -/
theorem absent_fields_stored_as_zero (db : DB) (uid : String) (trip : ActiveTrip)
    (pos : GeoCoords) (newId : String) (now : Nat)
    (hid : newId ∉ db.gps_updates.map GpsUpdate.id)
    (hlat : |pos.latitude| < 100) (hlng : |pos.longitude| < 1000)
    (hspeed : |jsNumOrZero pos.speed| < 1000)
    (hheading : |jsNumOrZero pos.heading| < 1000)
    (haccuracy : |jsNumOrZero pos.accuracy| < 10000)
    (howner : ∃ t ∈ db.trips, t.id = trip.id ∧ t.driver_id = uid) :
    (sendGPSUpdate db uid (some trip) true (.success pos) newId now).inserted = true ∧
    (sendGPSUpdate db uid (some trip) true (.success pos) newId now).db.gps_updates.getLast?
      = some { id := newId, trip_id := trip.id,
               latitude := pos.latitude, longitude := pos.longitude,
               speed := jsNumOrZero pos.speed, heading := jsNumOrZero pos.heading,
               accuracy := jsNumOrZero pos.accuracy, created_at := now } ∧
    (pos.speed = none →
      ((sendGPSUpdate db uid (some trip) true (.success pos) newId now).db.gps_updates.getLast?.map
        GpsUpdate.speed) = some 0) ∧
    (pos.heading = none →
      ((sendGPSUpdate db uid (some trip) true (.success pos) newId now).db.gps_updates.getLast?.map
        GpsUpdate.heading) = some 0) ∧
    (pos.accuracy = none →
      ((sendGPSUpdate db uid (some trip) true (.success pos) newId now).db.gps_updates.getLast?.map
        GpsUpdate.accuracy) = some 0) := by
  have hrow : dbInsertGps db uid
      { id := newId, trip_id := trip.id,
        latitude := pos.latitude, longitude := pos.longitude,
        speed := jsNumOrZero pos.speed, heading := jsNumOrZero pos.heading,
        accuracy := jsNumOrZero pos.accuracy, created_at := now }
      = .ok { db with gps_updates := db.gps_updates ++
          [{ id := newId, trip_id := trip.id,
             latitude := pos.latitude, longitude := pos.longitude,
             speed := jsNumOrZero pos.speed, heading := jsNumOrZero pos.heading,
             accuracy := jsNumOrZero pos.accuracy, created_at := now }] } :=
    dbInsertGps_ok db uid _ hid hlat hlng hspeed hheading haccuracy howner
  have hins : (sendGPSUpdate db uid (some trip) true (.success pos) newId now).inserted
      = true := by
    simp [sendGPSUpdate, hrow]
  have hdb : (sendGPSUpdate db uid (some trip) true (.success pos) newId now).db.gps_updates
      = db.gps_updates ++
        [{ id := newId, trip_id := trip.id,
           latitude := pos.latitude, longitude := pos.longitude,
           speed := jsNumOrZero pos.speed, heading := jsNumOrZero pos.heading,
           accuracy := jsNumOrZero pos.accuracy, created_at := now }] := by
    simp [sendGPSUpdate, hrow]
  have hlast : (sendGPSUpdate db uid (some trip) true (.success pos) newId now).db.gps_updates.getLast?
      = some { id := newId, trip_id := trip.id,
               latitude := pos.latitude, longitude := pos.longitude,
               speed := jsNumOrZero pos.speed, heading := jsNumOrZero pos.heading,
               accuracy := jsNumOrZero pos.accuracy, created_at := now } := by
    rw [hdb]
    exact List.getLast?_concat _
  refine ⟨hins, hlast, ?_, ?_, ?_⟩ <;> intro h <;> rw [hlast] <;> simp [h, jsNumOrZero]

/-- Witness for C9, at a mixed-absence fix: `exPosMixed` has speed
absent but heading and accuracy present; the persisted row stores speed
as zero while keeping the supplied heading 7 and accuracy 3. -/
theorem absent_fields_stored_as_zero_witness :
    exPosMixed.speed = none ∧
    exPosMixed.heading = some 7 ∧
    exPosMixed.accuracy = some 3 ∧
    ((sendGPSUpdate exDB "d1" (some exATrip) true (.success exPosMixed) "g5" 15).db.gps_updates.getLast?.map
      GpsUpdate.speed) = some 0 ∧
    ((sendGPSUpdate exDB "d1" (some exATrip) true (.success exPosMixed) "g5" 15).db.gps_updates.getLast?.map
      GpsUpdate.heading) = some 7 ∧
    ((sendGPSUpdate exDB "d1" (some exATrip) true (.success exPosMixed) "g5" 15).db.gps_updates.getLast?.map
      GpsUpdate.accuracy) = some 3 :=
  ⟨by decide, by decide, by decide,
    (absent_fields_stored_as_zero exDB "d1" exATrip exPosMixed "g5" 15 (by decide) (by decide)
      (by decide) (by decide) (by decide) (by decide)
      ⟨exTrip1, by decide, by decide, by decide⟩).2.2.1 (by decide),
    by decide, by decide⟩

/-- C10 (implicit): every `BusMap` apply step — any realtime event —
preserves duplicate-freedom of the trip ids in the view: a
`gps_updates` INSERT either replaces the single existing entry with
that id in place or appends one new entry with a fresh id, and `trips`
events leave the view unchanged. -/
theorem busmap_view_ids_stay_nodup (tripInfo : TripInfo) (view : List BusLocation)
    (ev : RealtimeEvent) (h : (view.map BusLocation.id).Nodup) :
    ((busMapStep tripInfo view ev).map BusLocation.id).Nodup := by
  cases ev with
  | tripChange i s => exact h
  | gpsInsert p =>
    show ((handleGpsInsert tripInfo view p).map BusLocation.id).Nodup
    cases hfi : tripInfo p.trip_id with
    | none =>
      unfold handleGpsInsert
      rw [hfi]
      exact h
    | some info =>
      rw [handleGpsInsert_of_some tripInfo view p info hfi, applyGpsInsert_eq_applyRec]
      exact nodup_applyRec view (payloadToLocation p info) h

/-- Witness for C10: applying a sample event for the already-present
trip `t1` to the duplicate-free two-entry view keeps the ids
duplicate-free. -/
theorem busmap_view_ids_stay_nodup_witness :
    (exView2.map BusLocation.id).Nodup ∧
    (((busMapStep exTripInfo exView2 (.gpsInsert exP3)).map BusLocation.id)).Nodup :=
  ⟨by decide, busmap_view_ids_stay_nodup exTripInfo exView2 (.gpsInsert exP3) (by decide)⟩

end BusTrackr
